import Mathlib

/-!
Verification of the proton-core component registry (`proton/loader/loader.py`)
and session coordinator (`proton/session/api.py`) against their specification.

The Python source is shallowly embedded: dictionaries become association
lists, the transport becomes a response oracle indexed by call number, and
each coroutine becomes a pure function from session state and oracle to a
result, a new state and a trace of observable events.
-/

namespace PyStr

/-- Helper for `pyTokens`: scan the characters, accumulating the current
word (reversed) and emitting it at each whitespace run. -/
def chunkWs : List Char → List Char → List String
  | acc, [] => if acc = [] then [] else [⟨acc.reverse⟩]
  | acc, c :: cs =>
    if c.isWhitespace then
      (if acc = [] then [] else [(⟨acc.reverse⟩ : String)]) ++ chunkWs [] cs
    else chunkWs (c :: acc) cs

/-- Python `str.split()` with no argument: split on whitespace runs,
dropping empty pieces. -/
def pyTokens (s : String) : List String := chunkWs [] s.data

/-- Python `str.startswith`. -/
def pyStartsWith (s p : String) : Bool := p.data.isPrefixOf s.data

/-- Python slicing `s[n:]` (by code point, as Python slices). -/
def pyDrop (s : String) (n : Nat) : String := ⟨s.data.drop n⟩

/-- Python `<=` on strings: lexicographic comparison by code point. -/
def strLeB : List Char → List Char → Bool
  | [], _ => true
  | _ :: _, [] => false
  | c :: cs, d :: ds => if c < d then true else if d < c then false else strLeB cs ds

/-- Python `<` on strings: strict lexicographic comparison by code point. -/
def strLtB : List Char → List Char → Bool
  | [], [] => false
  | [], _ :: _ => true
  | _ :: _, [] => false
  | c :: cs, d :: ds => if c < d then true else if d < c then false else strLtB cs ds

theorem strLeB_total : ∀ a b : List Char, strLeB a b = true ∨ strLeB b a = true
  | [], _ => Or.inl rfl
  | _ :: _, [] => Or.inr rfl
  | c :: cs, d :: ds => by
    rcases lt_trichotomy c d with h | h | h
    · exact Or.inl (by simp [strLeB, h])
    · subst h
      rcases strLeB_total cs ds with h2 | h2
      · exact Or.inl (by simp [strLeB, h2])
      · exact Or.inr (by simp [strLeB, h2])
    · exact Or.inr (by simp [strLeB, h])

theorem strLeB_trans : ∀ a b c : List Char,
    strLeB a b = true → strLeB b c = true → strLeB a c = true
  | [], _, _, _, _ => rfl
  | _ :: _, [], _, h1, _ => by simp [strLeB] at h1
  | _ :: _, _ :: _, [], _, h2 => by simp [strLeB] at h2
  | a :: as, b :: bs, c :: cs, h1, h2 => by
    simp only [strLeB] at h1 h2 ⊢
    by_cases hab : a < b
    · by_cases hbc : b < c
      · simp [lt_trans hab hbc]
      · by_cases hcb : c < b
        · simp [hbc, hcb] at h2
        · have hbceq : b = c := le_antisymm (not_lt.mp hcb) (not_lt.mp hbc)
          subst hbceq
          simp [hab]
    · by_cases hba : b < a
      · simp [hab, hba] at h1
      · have habeq : a = b := le_antisymm (not_lt.mp hba) (not_lt.mp hab)
        subst habeq
        simp only [lt_irrefl, if_false] at h1
        by_cases hac : a < c
        · simp [hac]
        · by_cases hca : c < a
          · simp [hac, hca] at h2
          · simp only [if_neg hac, if_neg hca] at h2 ⊢
            exact strLeB_trans as bs cs h1 h2

theorem strLtB_of_strLeB_ne : ∀ a b : List Char,
    strLeB a b = true → a ≠ b → strLtB a b = true
  | [], [], _, hne => absurd rfl hne
  | [], _ :: _, _, _ => rfl
  | _ :: _, [], h, _ => by simp [strLeB] at h
  | a :: as, b :: bs, h, hne => by
    simp only [strLeB] at h
    simp only [strLtB]
    by_cases hab : a < b
    · simp [hab]
    · by_cases hba : b < a
      · simp [hab, hba] at h
      · have heq : a = b := le_antisymm (not_lt.mp hba) (not_lt.mp hab)
        subst heq
        simp only [lt_irrefl, if_false] at h ⊢
        have hne2 : as ≠ bs := fun hh => hne (by rw [hh])
        exact strLtB_of_strLeB_ne as bs h hne2

end PyStr

namespace Loader

open PyStr

/-- Parameters passed to a backend validation hook (`validate_params`). -/
abbrev ValidateParams := List (String × String)

/-- A pluggable implementation class, as the loader sees it: its
`_get_priority()` result, whether it has a `_validate` hook, whether that
hook takes a `validate_params` argument, and the hook itself.  `tag`
distinguishes implementations. -/
structure Impl where
  prio : Option Int
  validateTakesParams : Bool := false
  validateFn : Option (Option ValidateParams → Bool) := none
  tag : Nat := 0

/-- `PluggableComponent` namedtuple from loader.py: (priority, class_name, cls). -/
structure PluggableComponent where
  priority : Option Int
  class_name : String
  cls : Impl

/-- The per-type dictionary `known_types[type_name]` (insertion-ordered,
unique names). -/
abbrev KnownTypes := List (String × Impl)

/-- Parse the `PROTON_LOADER_OVERRIDES` environment string for one
`type_name`: split on whitespace, keep tokens starting with `type_name=`,
and drop that prefix (loader.py lines 187-189). -/
def parseOverrides (env type_name : String) : List String :=
  ((pyTokens env).filter
    (fun x => pyStartsWith x (type_name ++ "="))).map
    (fun x => pyDrop x (type_name.length + 1))

/-- `acceptable_classes` of loader.py lines 205-206: acceptable entries with
their real priority, then non-acceptable entries with priority `None`. -/
def build_classes (known : KnownTypes) (acceptable : List String) :
    List PluggableComponent :=
  (known.filter (fun kv => acceptable.contains kv.1)).map
    (fun kv => ⟨kv.2.prio, kv.1, kv.2⟩)
  ++ (known.filter (fun kv => !(acceptable.contains kv.1))).map
    (fun kv => ⟨none, kv.1, kv.2⟩)

/-- Sort key of an entry in `acceptable_classes_with_prio`: the (priority,
class_name) pair compared lexicographically, as Python compares the tuples
`(priority, class_name, cls)` (the class is never reached because names are
unique within a type). -/
def entryKey (e : PluggableComponent) : Int × String :=
  (e.priority.getD 0, e.class_name)

/-- Lexicographic order on (priority, name) pairs; the string comparison
is Python's code-point comparison. -/
def keyLe (x y : Int × String) : Prop :=
  x.1 < y.1 ∨ (x.1 = y.1 ∧ strLeB x.2.data y.2.data = true)

/-- Strict lexicographic order on (priority, name) pairs. -/
def keyLt (x y : Int × String) : Prop :=
  x.1 < y.1 ∨ (x.1 = y.1 ∧ strLtB x.2.data y.2.data = true)

instance : DecidableRel keyLe := fun _ _ =>
  inferInstanceAs (Decidable (_ ∨ _))

/-- Descending comparison used for `acceptable_classes_with_prio.sort(reverse=True)`. -/
def pcDesc (a b : PluggableComponent) : Prop := keyLe (entryKey b) (entryKey a)

instance : DecidableRel pcDesc := fun _ _ =>
  inferInstanceAs (Decidable (keyLe _ _))

theorem keyLe_total (x y : Int × String) : keyLe x y ∨ keyLe y x := by
  rcases lt_trichotomy x.1 y.1 with h | h | h
  · exact Or.inl (Or.inl h)
  · rcases strLeB_total x.2.data y.2.data with h2 | h2
    · exact Or.inl (Or.inr ⟨h, h2⟩)
    · exact Or.inr (Or.inr ⟨h.symm, h2⟩)
  · exact Or.inr (Or.inl h)

theorem keyLe_trans {x y z : Int × String} (h1 : keyLe x y) (h2 : keyLe y z) :
    keyLe x z := by
  rcases h1 with h1 | ⟨h1e, h1s⟩
  · rcases h2 with h2 | ⟨h2e, _⟩
    · exact Or.inl (h1.trans h2)
    · exact Or.inl (h2e ▸ h1)
  · rcases h2 with h2 | ⟨h2e, h2s⟩
    · exact Or.inl (h1e ▸ h2)
    · exact Or.inr ⟨h1e.trans h2e, strLeB_trans _ _ _ h1s h2s⟩

instance : IsTotal PluggableComponent pcDesc :=
  ⟨fun a b => keyLe_total (entryKey b) (entryKey a)⟩

instance : IsTrans PluggableComponent pcDesc :=
  ⟨fun _ _ _ h1 h2 => keyLe_trans h2 h1⟩

/-- Partition `acceptable_classes` by priority and sort the prioritized
ones highest-first (loader.py lines 207-213). -/
def orderClasses (b : List PluggableComponent) : List PluggableComponent :=
  (b.filter (fun e => e.priority.isSome)).insertionSort pcDesc
  ++ b.filter (fun e => e.priority.isNone)

/-- `Loader.get_all(type_name)` after discovery: re-reads the override
string, computes the acceptable entry points (forced, or all minus the
excluded), and returns the ordered component list.  Errors: multiple force
tokens raise, and a forced name not among the known types leaves
`acceptable_entry_points` unassigned (a Python `UnboundLocalError`). -/
def get_all (known : KnownTypes) (env type_name : String) :
    Except String (List PluggableComponent) :=
  let overrides := parseOverrides env type_name
  let force_class := (overrides.filter (fun x => !(pyStartsWith x "-"))).dedup
  match force_class with
  | [c] =>
    if known.any (fun kv => kv.1 = c) then
      .ok (orderClasses (build_classes known [c]))
    else
      .error "UnboundLocalError: acceptable_entry_points never assigned"
  | [] =>
    let acceptable := (known.map Prod.fst).filter
      (fun k => !(overrides.contains ("-" ++ k)))
    .ok (orderClasses (build_classes known acceptable))
  | _ => .error "Loader: PROTON_LOADER_OVERRIDES contains multiple force"

/-- The candidate loop of `Loader.get` (loader.py lines 103-127): with an
explicit `class_name` any entry with that name is returned directly;
otherwise null-priority entries are skipped and the validation hook is
probed. -/
def getLoop : List PluggableComponent → Option String → Option ValidateParams →
    Except String Impl
  | [], _, _ => .error "Loader: could not find an acceptable implementation"
  | e :: rest, some c, vp =>
    if e.class_name = c then .ok e.cls else getLoop rest (some c) vp
  | e :: rest, none, vp =>
    if e.priority = none then getLoop rest none vp
    else
      match e.cls.validateFn with
      | some f =>
        if (if e.cls.validateTakesParams then f vp else f none) then .ok e.cls
        else getLoop rest none vp
      | none => .ok e.cls

/-- `Loader.get(type_name, class_name, validate_params)`. -/
def get (known : KnownTypes) (env type_name : String)
    (class_name : Option String) (vp : Option ValidateParams) :
    Except String Impl :=
  match get_all known env type_name with
  | .error e => .error e
  | .ok acc => getLoop acc class_name vp

/-- Names appearing in a `get_all` result, in order (empty on error). -/
def namesOf (r : Except String (List PluggableComponent)) : List String :=
  match r with
  | .ok l => l.map (fun e => e.class_name)
  | .error _ => []

end Loader

namespace Api

/-- `ProtonAPIError`: http status, body-level error code, response headers.
The exception class itself lives outside the embedded sources; its shape is
taken from the spec taxonomy ApiError\x7bhttpCode, bodyCode, headers\x7d. -/
structure ApiError where
  http_code : Nat
  body_code : Nat := 0
  http_headers : List (String × String) := []
deriving Repr, DecidableEq

/-- Exceptions a session operation can raise. -/
inductive PError where
  | cryptoError (msg : String)
  | apiError (e : ApiError)
  | api2FANeeded (e : ApiError)
  | apiMissingScope (e : ApiError)
  | apiAuthNeeded (e : ApiError)
  | keyError (k : String)
deriving Repr, DecidableEq

/-- A parsed successful response body, with the keys the session reads.
A `none` field means the key is absent from the JSON dictionary (reading it
raises `KeyError`). -/
structure RespData where
  uid : Option String := none
  accessToken : Option String := none
  refreshToken : Option String := none
  scopes : Option (List String) := none
  code : Option Nat := none
  has2FA : Bool := false
  hasServerProof : Bool := true
deriving Repr, DecidableEq

/-- The transport as a response oracle: call number `n` yields either
parsed response data or a `ProtonAPIError`. -/
abbrev Oracle := Nat → Except ApiError RespData

/-- Session credential and bookkeeping state (`Session.__init__`).
`environment` is the logical environment name when one is pinned;
`transport` records whether a transport instance is currently cached. -/
structure Session where
  uid : Option String := none
  accessToken : Option String := none
  refreshToken : Option String := none
  scopes : Option (List String) := none
  accountName : Option String := none
  twoFA : Bool := false
  refresh_revision : Nat := 0
  environment : Option String := none
  transport : Bool := false
deriving Repr, DecidableEq

/-- Observable events of a run. -/
inductive Event where
  | call (idx : Nat)
  | sleepRetry (e : ApiError)
  | refreshInvoked (onlyWhen : Option Nat)
deriving Repr, DecidableEq

/-- Result of running one coroutine: its return value (or raised error),
the session state after it, the next unconsumed oracle index, and the trace
of events it produced. -/
structure StepResult (α : Type) where
  val : α
  s : Session
  next : Nat
  tr : List Event
deriving Repr

/-- `Session.authenticated`: UID is present. -/
def Session.authenticated (s : Session) : Bool := s.uid.isSome

/-- `Session.needs_twofa`: Scopes is set and contains 'twofactor'. -/
def Session.needs_twofa (s : Session) : Bool :=
  match s.scopes with
  | none => false
  | some l => l.contains "twofactor"

/-- Clearing of the four credential fields, as done by refresh on 400/422
and by logout on success. -/
def clearCreds (s : Session) : Session :=
  { s with uid := none, accessToken := none, refreshToken := none,
           scopes := none }

/-- Python `str.isnumeric()` restricted to ASCII digit strings (other
numeric code points are not modelled). -/
def pyIsNumeric (v : String) : Bool := !v.data.isEmpty && v.data.all Char.isDigit

/-- Python `int(v)` for a decimal digit string. -/
def pyToNat (v : String) : Nat :=
  v.data.foldl (fun a c => a * 10 + (c.toNat - 48)) 0

/-- `dict.get(key, default)` on the response headers. -/
def headersGet (hs : List (String × String)) (k d : String) : String :=
  ((hs.find? (fun p => p.1 = k)).map Prod.snd).getD d

/-- `Session.__sleep_for_exception`: sleep `int(retry-after)` when the
header is numeric, else `3 + random.random()*5` with `r` the sampled value
of `random.random()`. -/
def sleep_for_exception (e : ApiError) (r : ℚ) : ℚ :=
  let v := headersGet e.http_headers "retry-after" "-"
  if pyIsNumeric v then ((pyToNat v : Nat) : ℚ) else 3 + r * 5

/-- The retry loop body of `Session.async_refresh` (api.py lines 439-469),
with `attempts` as explicit fuel.  Returns the Python return value:
`some true` on success, `some false` on failure, `none` when the loop
exhausts its attempts (the coroutine falls off the loop and returns
`None`). -/
def refreshLoop (o : Oracle) : Session → Nat → Nat → List Event →
    StepResult (Except PError (Option Bool))
  | s, 0, i, tr => ⟨.ok none, s, i, tr⟩
  | s, n + 1, i, tr =>
    let s := { s with transport := true }
    match o i with
    | .ok d =>
      match d.accessToken with
      | none => ⟨.error (.keyError "AccessToken"), s, i + 1, tr ++ [.call i]⟩
      | some a =>
        let s := { s with accessToken := some a }
        match d.refreshToken with
        | none => ⟨.error (.keyError "RefreshToken"), s, i + 1, tr ++ [.call i]⟩
        | some rt =>
          let s := { s with refreshToken := some rt }
          match d.scopes with
          | none => ⟨.error (.keyError "Scopes"), s, i + 1, tr ++ [.call i]⟩
          | some sc =>
            ⟨.ok (some true), { s with scopes := some sc }, i + 1,
              tr ++ [.call i]⟩
    | .error e =>
      if e.http_code = 409 then
        refreshLoop o s n (i + 1) (tr ++ [.call i])
      else if e.http_code = 429 ∨ e.http_code = 503 then
        refreshLoop o s n (i + 1) (tr ++ [.call i, .sleepRetry e])
      else if e.http_code = 400 ∨ e.http_code = 422 then
        ⟨.ok (some false), clearCreds s, i + 1, tr ++ [.call i]⟩
      else
        ⟨.ok (some false), s, i + 1, tr ++ [.call i]⟩

/-- `Session.async_refresh(only_when_refresh_revision_is)`.  The staleness
guard is transcribed as found at api.py line 429: it compares the live
revision counter with itself, so the early-exit branch is unreachable; the
revision is then incremented and the 3-attempt loop runs. -/
def async_refresh (o : Oracle) (s : Session) (only_when : Option Nat)
    (i : Nat) : StepResult (Except PError (Option Bool)) :=
  if only_when.isSome ∧ s.refresh_revision ≠ s.refresh_revision then
    ⟨.ok (some true), s, i, []⟩
  else
    refreshLoop o { s with refresh_revision := s.refresh_revision + 1 } 3 i []

/-- The retry loop of `Session.async_api_request` (api.py lines 231-263),
with `attempts` as explicit fuel.  `some d` is returned response data,
`none` means the loop exhausted its attempts and the coroutine returned
`None`. -/
def apiLoop (o : Oracle) : Session → Nat → Nat → List Event →
    StepResult (Except PError (Option RespData))
  | s, 0, i, tr => ⟨.ok none, s, i, tr⟩
  | s, n + 1, i, tr =>
    let revStart := s.refresh_revision
    let s := { s with transport := true }
    match o i with
    | .ok d => ⟨.ok (some d), s, i + 1, tr ++ [.call i]⟩
    | .error e =>
      if e.http_code = 403 then
        if s.needs_twofa then
          ⟨.error (.api2FANeeded e), s, i + 1, tr ++ [.call i]⟩
        else
          ⟨.error (.apiMissingScope e), s, i + 1, tr ++ [.call i]⟩
      else if e.http_code = 401 then
        let r := async_refresh o s (some revStart) (i + 1)
        let tr := tr ++ [.call i, .refreshInvoked (some revStart)] ++ r.tr
        match r.val with
        | .error pe => ⟨.error pe, r.s, r.next, tr⟩
        | .ok v =>
          if v = some true then apiLoop o r.s n r.next tr
          else ⟨.error (.apiAuthNeeded e), r.s, r.next, tr⟩
      else if e.http_code = 408 ∨ e.http_code = 502 then
        apiLoop o s n (i + 1) (tr ++ [.call i])
      else if e.http_code = 429 ∨ e.http_code = 503 then
        apiLoop o s n (i + 1) (tr ++ [.call i, .sleepRetry e])
      else
        ⟨.error (.apiError e), s, i + 1, tr ++ [.call i]⟩

/-- `Session.async_api_request`: 3 attempts of the classification loop. -/
def async_api_request (o : Oracle) (s : Session) (i : Nat) :
    StepResult (Except PError (Option RespData)) :=
  apiLoop o s 3 i []

/-- `Session.async_logout` (api.py lines 475-501): no-op `True` when
unauthenticated; otherwise one DELETE call; success clears the four
credential fields and returns `True`; a `ProtonAPIError` with code 401 is
ignored and the coroutine falls off the function body returning `None`
without clearing anything; any other error propagates. -/
def async_logout (o : Oracle) (s : Session) (i : Nat) :
    StepResult (Except PError (Option Bool)) :=
  if s.uid = none then ⟨.ok (some true), s, i, []⟩
  else
    let s := { s with transport := true }
    match o i with
    | .ok _ => ⟨.ok (some true), clearCreds s, i + 1, [.call i]⟩
    | .error e =>
      if e.http_code ≠ 401 then ⟨.error (.apiError e), s, i + 1, [.call i]⟩
      else ⟨.ok none, s, i + 1, [.call i]⟩

/-- `Session.async_provide_2fa` (api.py lines 390-414): submits the code,
stores the returned Scopes, and clears the pending-2FA marker exactly when
the body `Code` is 1000. -/
def async_provide_2fa (o : Oracle) (s : Session) (i : Nat) :
    StepResult (Except PError Bool) :=
  let s := { s with transport := true }
  match o i with
  | .error e => ⟨.error (.apiError e), s, i + 1, [.call i]⟩
  | .ok d =>
    match d.scopes with
    | none => ⟨.error (.keyError "Scopes"), s, i + 1, [.call i]⟩
    | some sc =>
      let s := { s with scopes := some sc }
      if d.code = some 1000 then
        ⟨.ok true, { s with twoFA := false }, i + 1, [.call i]⟩
      else
        ⟨.ok false, s, i + 1, [.call i]⟩

/-- The credential assignments of a successful `/auth` response
(api.py lines 373-382), in source order, stopping at the first missing key
(`KeyError` after the earlier assignments took effect). -/
def setAuthCreds (s : Session) (d : RespData) (username : String) :
    Except PError Session :=
  match d.uid with
  | none => .error (.keyError "UID")
  | some u =>
    let s := { s with uid := some u }
    match d.accessToken with
    | none => .error (.keyError "AccessToken")
    | some a =>
      let s := { s with accessToken := some a }
      match d.refreshToken with
      | none => .error (.keyError "RefreshToken")
      | some rt =>
        let s := { s with refreshToken := some rt }
        match d.scopes with
        | none => .error (.keyError "Scopes")
        | some sc =>
          .ok { s with scopes := some sc, accountName := some username,
                       twoFA := d.has2FA }

/-- `Session.async_authenticate` (api.py lines 321-386).  The SRP engine
and modulus verification are abstracted by two booleans: `srpOk` stands for
a valid signed modulus and a non-`None` client proof, `serverProofOk` for
`usr.authenticated()` after `verify_session`.  Oracle call 1 is
`/auth/info`, call 2 is `/auth` (after the internal logout's calls). -/
def async_authenticate (o : Oracle) (srpOk serverProofOk : Bool)
    (s : Session) (username : String) (i : Nat) :
    StepResult (Except PError Bool) :=
  let lr := async_logout o s i
  match lr.val with
  | .error pe => ⟨.error pe, lr.s, lr.next, lr.tr⟩
  | .ok _ =>
    let s := { lr.s with transport := true }
    let j := lr.next
    match o j with
    | .error e => ⟨.error (.apiError e), s, j + 1, lr.tr ++ [.call j]⟩
    | .ok _info =>
      if ¬ srpOk then
        ⟨.error (.cryptoError "Invalid modulus or challenge"), s, j + 1,
          lr.tr ++ [.call j]⟩
      else
        match o (j + 1) with
        | .error e =>
          if e.body_code = 8002 then
            ⟨.ok false, s, j + 2, lr.tr ++ [.call j, .call (j + 1)]⟩
          else
            ⟨.error (.apiError e), s, j + 2, lr.tr ++ [.call j, .call (j + 1)]⟩
        | .ok d =>
          if ¬ d.hasServerProof then
            ⟨.ok false, s, j + 2, lr.tr ++ [.call j, .call (j + 1)]⟩
          else if ¬ serverProofOk then
            ⟨.error (.cryptoError "Invalid server proof"), s, j + 2,
              lr.tr ++ [.call j, .call (j + 1)]⟩
          else
            match setAuthCreds s d username with
            | .error pe => ⟨.error pe, s, j + 2,
                lr.tr ++ [.call j, .call (j + 1)]⟩
            | .ok s2 => ⟨.ok true, s2, j + 2,
                lr.tr ++ [.call j, .call (j + 1)]⟩

end Api

namespace Api

/-- A session snapshot (the dictionary produced by `__getstate__`); a
`none` field stands for an absent key, so the empty dictionary is the
all-`none` record. -/
structure SessionDump where
  uid : Option String := none
  accessToken : Option String := none
  refreshToken : Option String := none
  scopes : Option (List String) := none
  environment : Option String := none
  accountName : Option String := none
deriving Repr, DecidableEq

/-- The empty snapshot `\x7b\x7d`. -/
def emptyDump : SessionDump := {}

/-- The `Session.environment` property: the pinned environment if any,
else the one resolved through the Loader (its logical name is the
parameter `defaultEnv`). -/
def Session.environmentName (s : Session) (defaultEnv : String) : String :=
  s.environment.getD defaultEnv

/-- `Session.__getstate__` (api.py lines 164-179): empty when UID is
absent, else the six-field snapshot. -/
def getstate (s : Session) (defaultEnv : String) : SessionDump :=
  if s.uid = none then emptyDump
  else
    { uid := s.uid, accessToken := s.accessToken,
      refreshToken := s.refreshToken, scopes := s.scopes,
      environment := some (s.environmentName defaultEnv),
      accountName := s.accountName }

/-- Modelled from the spec: `Environment.get_environment` (referenced at
api.py line 162 but defined outside the embedded sources) resolves an
environment by its logical name; environments compare equal by name, so
resolution is the identity on names. -/
def get_environment (n : Option String) : Option String := n

/-- `Session.__setstate__` (api.py lines 153-162): restore the credential
fields from the snapshot, reset the cached transport, and resolve the
stored environment name. -/
def setstate (s : Session) (d : SessionDump) : Session :=
  { s with uid := d.uid, accessToken := d.accessToken,
           refreshToken := d.refreshToken, scopes := d.scopes,
           accountName := d.accountName, transport := false,
           environment := get_environment d.environment }

/-- `Session.load`: a freshly constructed session populated via
`__setstate__`. -/
def Session.load (d : SessionDump) : Session := setstate {} d

/-- `Session.dump`. -/
def Session.dump (s : Session) (defaultEnv : String) : SessionDump :=
  getstate s defaultEnv

/-- The spec invariant: UID is absent iff AccessToken, RefreshToken and
Scopes are all absent. -/
def credInvariant (s : Session) : Prop :=
  s.uid = none ↔ (s.accessToken = none ∧ s.refreshToken = none ∧ s.scopes = none)

instance (s : Session) : Decidable (credInvariant s) :=
  inferInstanceAs (Decidable (_ ↔ _))

/-- Number of internal-refresh invocations recorded in a trace. -/
def countRefresh (tr : List Event) : Nat :=
  tr.countP (fun ev => match ev with
    | .refreshInvoked _ => true
    | _ => false)

end Api

open Api in
/-- C1: the claim states that `refresh(observedRevision)` is a success
no-op (no token update, no counter increment) whenever the live
refresh-revision has already advanced past `observedRevision`.  The code at
api.py line 429 compares the live counter with itself, so the no-op branch
is dead: with live revision 5 and observed revision 3 the refresh still
increments the counter to 6, performs a network call and overwrites the
tokens. -/
theorem c1_refresh_stale_check_compares_counter_to_itself :
    (Api.async_refresh
      (fun _ => .ok { accessToken := some "AT1", refreshToken := some "RT1",
                      scopes := some ["full"] })
      { uid := some "u", accessToken := some "AT0",
        refreshToken := some "RT0", scopes := some ["full"],
        refresh_revision := 5 }
      (some 3) 0).val = .ok (some true) ∧
    (Api.async_refresh
      (fun _ => .ok { accessToken := some "AT1", refreshToken := some "RT1",
                      scopes := some ["full"] })
      { uid := some "u", accessToken := some "AT0",
        refreshToken := some "RT0", scopes := some ["full"],
        refresh_revision := 5 }
      (some 3) 0).s.refresh_revision = 6 ∧
    (Api.async_refresh
      (fun _ => .ok { accessToken := some "AT1", refreshToken := some "RT1",
                      scopes := some ["full"] })
      { uid := some "u", accessToken := some "AT0",
        refreshToken := some "RT0", scopes := some ["full"],
        refresh_revision := 5 }
      (some 3) 0).s.accessToken = some "AT1" ∧
    (Api.async_refresh
      (fun _ => .ok { accessToken := some "AT1", refreshToken := some "RT1",
                      scopes := some ["full"] })
      { uid := some "u", accessToken := some "AT0",
        refreshToken := some "RT0", scopes := some ["full"],
        refresh_revision := 5 }
      (some 3) 0).tr = [.call 0] :=
  ⟨rfl, rfl, rfl, rfl⟩

open Api in
/-- C4: `logout()` on an authenticated session whose DELETE call fails
with HTTP 401 ignores the error as claimed, but then neither clears the
credential fields nor returns `True`: the coroutine falls off the function
body and returns `None`, contradicting its own docstring ("True if logout
was successful (or nothing was done)"). -/
theorem c4_logout_ignored_401_returns_none_and_keeps_credentials :
    (Api.async_logout (fun _ => .error { http_code := 401 })
      { uid := some "u", accessToken := some "AT",
        refreshToken := some "RT", scopes := some ["full"] } 0).val
      = .ok none ∧
    (Api.async_logout (fun _ => .error { http_code := 401 })
      { uid := some "u", accessToken := some "AT",
        refreshToken := some "RT", scopes := some ["full"] } 0).s.uid
      = some "u" ∧
    (Api.async_logout (fun _ => .error { http_code := 401 })
      { uid := some "u", accessToken := some "AT",
        refreshToken := some "RT", scopes := some ["full"] } 0).s.accessToken
      = some "AT" :=
  ⟨rfl, rfl, rfl⟩

/-- C7: a generic API call attempt failing with HTTP 403 fails immediately
(one transport call, no retry, no sleep): with a pending second factor it
raises SecondFactorRequired (`ProtonAPI2FANeeded`), otherwise MissingScope
(`ProtonAPIMissingScopeError`). -/
theorem c7_403_fails_immediately (o : Api.Oracle) (s : Api.Session)
    (n i : Nat) (tr : List Api.Event) (e : Api.ApiError)
    (ho : o i = .error e) (h403 : e.http_code = 403) :
    Api.apiLoop o s (n + 1) i tr =
      if s.needs_twofa then
        ⟨.error (.api2FANeeded e), { s with transport := true }, i + 1,
          tr ++ [.call i]⟩
      else
        ⟨.error (.apiMissingScope e), { s with transport := true }, i + 1,
          tr ++ [.call i]⟩ := by
  unfold Api.apiLoop
  rw [ho]
  simp [h403, Api.Session.needs_twofa]

/-- Witness for C7: a session with scopes ['twofactor'] receiving a 403
raises `ProtonAPI2FANeeded` at once. -/
theorem c7_403_fails_immediately_witness :
    ((fun _ => .error { http_code := 403 } : Api.Oracle) 0
        = .error { http_code := 403 } ∧
      (403 : Nat) = 403) ∧
    Api.apiLoop (fun _ => .error { http_code := 403 })
        { scopes := some ["twofactor"] } 3 0 [] =
      ⟨.error (.api2FANeeded { http_code := 403 }),
        { scopes := some ["twofactor"], transport := true }, 1,
        [.call 0]⟩ := by
  constructor
  · exact ⟨rfl, rfl⟩
  · have h := c7_403_fails_immediately (fun _ => .error { http_code := 403 })
      { scopes := some ["twofactor"] } 2 0 [] { http_code := 403 } rfl rfl
    simpa using h

/-- C8: the backoff before retrying a 429/503: if the response carries a
numeric `retry-after` header the wait is exactly its integer value;
otherwise the wait is `3 + 5*r` for the sampled `r`, which lies in the
half-open interval [3, 8) when `0 ≤ r < 1`. -/
theorem c8_retry_backoff (e : Api.ApiError) (r : ℚ) (v : String)
    (hv : Api.headersGet e.http_headers "retry-after" "-" = v) :
    (Api.pyIsNumeric v = true →
      Api.sleep_for_exception e r = ((Api.pyToNat v : Nat) : ℚ)) ∧
    (Api.pyIsNumeric v = false → 0 ≤ r → r < 1 →
      Api.sleep_for_exception e r = 3 + r * 5 ∧
      3 ≤ Api.sleep_for_exception e r ∧ Api.sleep_for_exception e r < 8) := by
  constructor
  · intro hnum
    simp [Api.sleep_for_exception, hv, hnum]
  · intro hnum h0 h1
    have hval : Api.sleep_for_exception e r = 3 + r * 5 := by
      simp [Api.sleep_for_exception, hv, hnum]
    refine ⟨hval, ?_, ?_⟩
    · rw [hval]; linarith
    · rw [hval]; linarith

/-- Witness for C8: `retry-after: 5` waits exactly 5, and with no header
and `r = 1/2` the wait is 11/2 ∈ [3, 8). -/
theorem c8_retry_backoff_witness :
    (Api.headersGet [("retry-after", "5")] "retry-after" "-" = "5" ∧
      Api.pyIsNumeric "5" = true ∧
      Api.sleep_for_exception
        ({ http_code := 429, http_headers := [("retry-after", "5")] })
        (1/2) = ((5 : Nat) : ℚ)) ∧
    (Api.headersGet [] "retry-after" "-" = "-" ∧
      Api.pyIsNumeric "-" = false ∧ (0 : ℚ) ≤ 1/2 ∧ (1/2 : ℚ) < 1 ∧
      Api.sleep_for_exception { http_code := 503 } (1/2) = 3 + (1/2) * 5 ∧
      3 ≤ Api.sleep_for_exception { http_code := 503 } (1/2) ∧
      Api.sleep_for_exception { http_code := 503 } (1/2) < 8) := by
  constructor
  · refine ⟨rfl, by decide, ?_⟩
    exact (c8_retry_backoff
      ({ http_code := 429, http_headers := [("retry-after", "5")] })
      (1/2) "5" rfl).1 (by decide)
  · refine ⟨rfl, by decide, by norm_num, by norm_num, ?_⟩
    exact (c8_retry_backoff ({ http_code := 503 }) (1/2) "-" rfl).2
      (by decide) (by norm_num) (by norm_num)

open Loader in
/-- C2 counterexample: with known implementations a (priority 10) and b
(priority 5) and override string "t=-a", the excluded name "a" is still
present in `get_all('t')`'s result (demoted to null priority at the tail),
and `get('t', class_name='a')` returns a's implementation rather than
failing not-found. -/
theorem c2_excluded_name_still_reachable :
    Loader.namesOf (Loader.get_all
        [("a", { prio := some 10 }), ("b", { prio := some 5, tag := 1 })]
        "t=-a" "t") = ["b", "a"] ∧
    Loader.get [("a", { prio := some 10 }), ("b", { prio := some 5, tag := 1 })]
        "t=-a" "t" (some "a") none = .ok { prio := some 10 } := by
  constructor
  · rfl
  · rfl

namespace Loader

/-- In the explicit-`class_name` branch of `get`, the entry carrying the
requested (unique) name is returned directly, whatever its priority. -/
theorem getLoop_finds (k : String) (v : Impl) (vp : Option ValidateParams) :
    ∀ (l : List PluggableComponent) (p : Option Int),
      (⟨p, k, v⟩ : PluggableComponent) ∈ l →
      (l.map (fun e => e.class_name)).Nodup →
      getLoop l (some k) vp = .ok v
  | [], _, hm, _ => absurd hm (List.not_mem_nil _)
  | e :: rest, p, hm, hnd => by
    have hnd' : (e.class_name :: rest.map (fun e => e.class_name)).Nodup := by
      simpa using hnd
    rcases List.mem_cons.mp hm with he | he
    · rw [← he]
      simp [getLoop]
    · have hke : ¬ (e.class_name = k) := by
        intro hk
        exact (List.nodup_cons.mp hnd').1
          (hk ▸ List.mem_map.mpr ⟨_, he, rfl⟩)
      simp only [getLoop, if_neg hke]
      exact getLoop_finds k v vp rest p he (List.nodup_cons.mp hnd').2

/-- The names in `acceptable_classes` are a permutation of the known names
for the type. -/
theorem build_classes_names_perm (known : KnownTypes) (acc : List String) :
    ((build_classes known acc).map (fun e => e.class_name)).Perm
      (known.map Prod.fst) := by
  have h1 : (build_classes known acc).map (fun e => e.class_name)
      = (known.filter (fun kv => acc.contains kv.1)).map Prod.fst
        ++ (known.filter (fun kv => !(acc.contains kv.1))).map Prod.fst := by
    simp only [build_classes, List.map_append, List.map_map]
    rfl
  rw [h1, ← List.map_append]
  exact (List.filter_append_perm _ known).map Prod.fst

/-- Partitioning by priority and sorting the prioritized part permutes the
entry names. -/
theorem orderClasses_names_perm (b : List PluggableComponent) :
    ((orderClasses b).map (fun e => e.class_name)).Perm
      (b.map (fun e => e.class_name)) := by
  have hfilter : b.filter (fun e => e.priority.isNone)
      = b.filter (fun e => !(e.priority.isSome)) := by
    apply List.filter_congr
    intro e _
    cases e.priority <;> rfl
  have hperm : (orderClasses b).Perm
      (b.filter (fun e => e.priority.isSome)
        ++ b.filter (fun e => !(e.priority.isSome))) := by
    rw [orderClasses, hfilter]
    exact (List.perm_insertionSort _ _).append_right _
  exact (hperm.map _).trans ((List.filter_append_perm _ b).map _)

end Loader

open Loader in
/-- C2 (amended): a name excluded by a `TYPE=-NAME` override (with no
force token present) is not removed from `get_all`'s result: it appears
there, but only demoted to a null priority (hence after every prioritized
entry and never auto-selected); and `get(typeName, className=name)`
still returns the excluded implementation instead of failing not-found. -/
theorem c2_excluded_name_demoted_not_removed (known : Loader.KnownTypes)
    (env t k : String) (v : Loader.Impl)
    (hnodup : (known.map Prod.fst).Nodup)
    (hmem : (k, v) ∈ known)
    (hforce : (Loader.parseOverrides env t).filter
      (fun x => !(PyStr.pyStartsWith x "-")) = [])
    (hexcl : (Loader.parseOverrides env t).contains ("-" ++ k) = true) :
    k ∈ Loader.namesOf (Loader.get_all known env t) ∧
    (∀ l, Loader.get_all known env t = .ok l →
      ∀ e ∈ l, e.class_name = k → e.priority = none) ∧
    Loader.get known env t (some k) none = .ok v := by
  have hga : Loader.get_all known env t = .ok (orderClasses (build_classes known
      ((known.map Prod.fst).filter
        (fun k2 => !((parseOverrides env t).contains ("-" ++ k2)))))) := by
    simp only [Loader.get_all]
    rw [hforce]
    rfl
  set acceptable := (known.map Prod.fst).filter
    (fun k2 => !((parseOverrides env t).contains ("-" ++ k2))) with hacc
  set b := build_classes known acceptable with hb
  set l := orderClasses b with hl
  have hkacc : acceptable.contains k = false := by
    apply Bool.eq_false_iff.mpr
    intro hc
    have hkin : k ∈ acceptable := by simpa using hc
    rw [hacc] at hkin
    rcases List.mem_filter.mp hkin with ⟨_, hcond⟩
    rw [hexcl] at hcond
    exact absurd hcond (by decide)
  have hekb : (⟨none, k, v⟩ : PluggableComponent) ∈ b := by
    rw [hb, build_classes]
    refine List.mem_append_right _ (List.mem_map.mpr ⟨(k, v), ?_, rfl⟩)
    exact List.mem_filter.mpr ⟨hmem, by rw [hkacc]; rfl⟩
  have hekl : (⟨none, k, v⟩ : PluggableComponent) ∈ l := by
    rw [hl, orderClasses]
    exact List.mem_append_right _
      (List.mem_filter.mpr ⟨hekb, rfl⟩)
  have hnames : (l.map (fun e => e.class_name)).Nodup :=
    ((orderClasses_names_perm b).trans
      (build_classes_names_perm known acceptable)).nodup_iff.mpr hnodup
  refine ⟨?_, ?_, ?_⟩
  · rw [hga]
    exact List.mem_map.mpr ⟨_, hekl, rfl⟩
  · intro l2 hl2 e he hek
    rw [hga] at hl2
    injection hl2 with hl2
    subst hl2
    have : e = ⟨none, k, v⟩ :=
      List.inj_on_of_nodup_map hnames he hekl (by simpa using hek)
    rw [this]
  · unfold Loader.get
    rw [hga]
    exact getLoop_finds k v none l none hekl hnames

open Loader in
/-- Witness for the amended C2, on the registry a(10), b(5) with override
`t=-a`. -/
theorem c2_excluded_name_demoted_not_removed_witness :
    (([("a", ({ prio := some 10 } : Loader.Impl)),
        ("b", { prio := some 5, tag := 1 })].map Prod.fst).Nodup ∧
      (Loader.parseOverrides "t=-a" "t").filter
        (fun x => !(PyStr.pyStartsWith x "-")) = [] ∧
      (Loader.parseOverrides "t=-a" "t").contains ("-" ++ "a") = true) ∧
    ("a" ∈ Loader.namesOf (Loader.get_all
        [("a", { prio := some 10 }), ("b", { prio := some 5, tag := 1 })]
        "t=-a" "t") ∧
      Loader.get [("a", { prio := some 10 }),
        ("b", { prio := some 5, tag := 1 })] "t=-a" "t" (some "a") none
        = .ok { prio := some 10 }) := by
  refine ⟨⟨by decide, rfl, by decide⟩, ?_, ?_⟩
  · exact (c2_excluded_name_demoted_not_removed
      [("a", { prio := some 10 }), ("b", { prio := some 5, tag := 1 })]
      "t=-a" "t" "a" { prio := some 10 } (by decide)
      (List.mem_cons_self _ _) rfl (by decide)).1
  · exact (c2_excluded_name_demoted_not_removed
      [("a", { prio := some 10 }), ("b", { prio := some 5, tag := 1 })]
      "t=-a" "t" "a" { prio := some 10 } (by decide)
      (List.mem_cons_self _ _) rfl (by decide)).2.2

namespace Loader

/-- Any successful `get_all` result is `orderClasses` applied to
`build_classes` for some acceptable-name set. -/
theorem get_all_ok_shape (known : KnownTypes) (env t : String)
    (l : List PluggableComponent) (hl : get_all known env t = .ok l) :
    ∃ acc, l = orderClasses (build_classes known acc) := by
  simp only [get_all] at hl
  split at hl
  · split at hl
    · exact ⟨_, (Except.ok.injEq _ _).mp hl.symm⟩
    · exact absurd hl (by simp)
  · exact ⟨_, (Except.ok.injEq _ _).mp hl.symm⟩
  · exact absurd hl (by simp)

/-- Unequal strings have unequal character lists. -/
theorem strData_ne {s t : String} (h : s ≠ t) : s.data ≠ t.data := by
  intro hd
  apply h
  cases s
  cases t
  exact congrArg String.mk hd

end Loader

open Loader in
/-- C6: every successful `get_all(typeName)` result lists the entries
carrying a non-null priority first, sorted strictly descending by the
(priority, name) pair, followed by exactly the null-priority entries. -/
theorem c6_get_all_priority_ordering (known : Loader.KnownTypes)
    (env t : String) (hnodup : (known.map Prod.fst).Nodup)
    (l : List Loader.PluggableComponent)
    (hl : Loader.get_all known env t = .ok l) :
    l = l.filter (fun e => e.priority.isSome)
      ++ l.filter (fun e => e.priority.isNone) ∧
    (l.filter (fun e => e.priority.isSome)).Pairwise
      (fun a b => Loader.keyLt (Loader.entryKey b) (Loader.entryKey a)) := by
  obtain ⟨acc, hshape⟩ := get_all_ok_shape known env t l hl
  subst hshape
  set b := build_classes known acc with hb
  have hbnames : (b.map (fun e => e.class_name)).Nodup :=
    (build_classes_names_perm known acc).nodup_iff.mpr hnodup
  set sorted := (b.filter (fun e => e.priority.isSome)).insertionSort pcDesc
    with hsorted
  have hsortedperm : sorted.Perm (b.filter (fun e => e.priority.isSome)) :=
    List.perm_insertionSort _ _
  have hsome : ∀ e ∈ sorted, e.priority.isSome = true := fun e he =>
    (List.mem_filter.mp (hsortedperm.mem_iff.mp he)).2
  have hfilterS : sorted.filter (fun e => e.priority.isSome) = sorted :=
    List.filter_eq_self.mpr hsome
  have hfilterN : sorted.filter (fun e => e.priority.isNone) = [] := by
    rw [List.filter_eq_nil_iff]
    intro e he hn
    have hs := hsome e he
    rw [Option.isNone_iff_eq_none] at hn
    rw [hn] at hs
    exact absurd hs (by decide)
  have htailS : (b.filter (fun e => e.priority.isNone)).filter
      (fun e => e.priority.isSome) = [] := by
    rw [List.filter_eq_nil_iff]
    intro e he hs
    have hn := (List.mem_filter.mp he).2
    rw [Option.isNone_iff_eq_none] at hn
    rw [hn] at hs
    exact absurd hs (by decide)
  have htailN : (b.filter (fun e => e.priority.isNone)).filter
      (fun e => e.priority.isNone) = b.filter (fun e => e.priority.isNone) :=
    List.filter_eq_self.mpr (fun e he => (List.mem_filter.mp he).2)
  have hS : (orderClasses b).filter (fun e => e.priority.isSome) = sorted := by
    rw [orderClasses, List.filter_append, hfilterS, htailS, List.append_nil]
  have hN : (orderClasses b).filter (fun e => e.priority.isNone)
      = b.filter (fun e => e.priority.isNone) := by
    rw [orderClasses, List.filter_append, hfilterN, htailN, List.nil_append]
  constructor
  · rw [hS, hN, orderClasses]
  · rw [hS]
    have hsortednames : (sorted.map (fun e => e.class_name)).Nodup := by
      refine (hsortedperm.map _).nodup_iff.mpr ?_
      exact ((List.filter_sublist _).map _).nodup hbnames
    have hpne : sorted.Pairwise
        (fun a b2 => a.class_name ≠ b2.class_name) :=
      List.pairwise_map.mp hsortednames
    have hpdesc : sorted.Pairwise pcDesc := List.sorted_insertionSort _ _
    refine (hpdesc.and hpne).imp ?_
    rintro a c ⟨hle, hne⟩
    rcases hle with hlt | ⟨heq, hles⟩
    · exact Or.inl hlt
    · refine Or.inr ⟨heq, ?_⟩
      exact PyStr.strLtB_of_strLeB_ne _ _ hles (strData_ne (Ne.symm hne))

/-- The concrete `get_all` result for the spec's scenario registry
A(priority 10), B(priority 5), C(null priority), no overrides. -/
def c6list : List Loader.PluggableComponent :=
  [⟨some 10, "A", { prio := some 10 }⟩,
   ⟨some 5, "B", { prio := some 5, tag := 1 }⟩,
   ⟨none, "C", { prio := none, tag := 2 }⟩]

open Loader in
/-- Witness for C6 on the registry A(10), B(5), C(null priority) with no
overrides. -/
theorem c6_get_all_priority_ordering_witness :
    (([("A", ({ prio := some 10 } : Loader.Impl)),
        ("B", { prio := some 5, tag := 1 }),
        ("C", { prio := none, tag := 2 })].map Prod.fst).Nodup ∧
      Loader.get_all
        [("A", { prio := some 10 }), ("B", { prio := some 5, tag := 1 }),
          ("C", { prio := none, tag := 2 })] "" "t" = .ok c6list) ∧
    (c6list = c6list.filter (fun e => e.priority.isSome)
        ++ c6list.filter (fun e => e.priority.isNone) ∧
      (c6list.filter (fun e => e.priority.isSome)).Pairwise
        (fun a b => Loader.keyLt (Loader.entryKey b) (Loader.entryKey a))) :=
  ⟨⟨by decide, rfl⟩,
    c6_get_all_priority_ordering
      [("A", { prio := some 10 }), ("B", { prio := some 5, tag := 1 }),
        ("C", { prio := none, tag := 2 })] "" "t" (by decide) c6list rfl⟩

/-- C9: `dump()` is the empty snapshot exactly when the session is
unauthenticated; otherwise it carries UID, AccessToken, RefreshToken,
Scopes, the environment's logical name and AccountName, and loading that
snapshot into a fresh session reproduces every one of those fields and
leaves the cached transport cleared. -/
theorem c9_dump_restore_round_trip (s : Api.Session) (denv : String) :
    (Api.getstate s denv = Api.emptyDump ↔ s.uid = none) ∧
    (∀ u, s.uid = some u →
      Api.getstate s denv =
        { uid := some u, accessToken := s.accessToken,
          refreshToken := s.refreshToken, scopes := s.scopes,
          environment := some (s.environmentName denv),
          accountName := s.accountName } ∧
      (Api.Session.load (s.dump denv)).uid = some u ∧
      (Api.Session.load (s.dump denv)).accessToken = s.accessToken ∧
      (Api.Session.load (s.dump denv)).refreshToken = s.refreshToken ∧
      (Api.Session.load (s.dump denv)).scopes = s.scopes ∧
      (Api.Session.load (s.dump denv)).accountName = s.accountName ∧
      (Api.Session.load (s.dump denv)).environment
        = some (s.environmentName denv) ∧
      (Api.Session.load (s.dump denv)).transport = false) := by
  constructor
  · constructor
    · intro hd
      by_contra hu
      rw [Api.getstate, if_neg hu] at hd
      have : some (s.environmentName denv) = none :=
        congrArg Api.SessionDump.environment hd
      exact Option.noConfusion this
    · intro hu
      rw [Api.getstate, if_pos hu]
  · intro u hu
    have hne : ¬ (s.uid = none) := by rw [hu]; exact Option.noConfusion
    refine ⟨?_, ?_⟩
    · rw [Api.getstate, if_neg hne, hu]
    · rw [Api.Session.dump, Api.getstate, if_neg hne]
      simp [Api.Session.load, Api.setstate, Api.get_environment, hu]

/-- Witness for C9 on a concrete authenticated session. -/
theorem c9_dump_restore_round_trip_witness :
    (({ uid := some "u", accessToken := some "AT", refreshToken := some "RT",
        scopes := some ["full"], accountName := some "alice",
        environment := some "prod", transport := true } : Api.Session).uid
      = some "u") ∧
    (Api.Session.load (Api.Session.dump
        { uid := some "u", accessToken := some "AT",
          refreshToken := some "RT", scopes := some ["full"],
          accountName := some "alice", environment := some "prod",
          transport := true } "prod2")).accessToken = some "AT" ∧
    (Api.Session.load (Api.Session.dump
        { uid := some "u", accessToken := some "AT",
          refreshToken := some "RT", scopes := some ["full"],
          accountName := some "alice", environment := some "prod",
          transport := true } "prod2")).environment = some "prod" ∧
    (Api.Session.load (Api.Session.dump
        { uid := some "u", accessToken := some "AT",
          refreshToken := some "RT", scopes := some ["full"],
          accountName := some "alice", environment := some "prod",
          transport := true } "prod2")).transport = false := by
  have h := (c9_dump_restore_round_trip
    { uid := some "u", accessToken := some "AT", refreshToken := some "RT",
      scopes := some ["full"], accountName := some "alice",
      environment := some "prod", transport := true } "prod2").2 "u" rfl
  exact ⟨rfl, h.2.2.1, h.2.2.2.2.2.2.1, h.2.2.2.2.2.2.2⟩

/-- C10: when all 3 attempts of a generic API call are consumed by
retriable failures (408/502 immediate retry, 429/503 backoff retry, or a
401 whose internal refresh succeeded), the retry loop exits and the
coroutine returns `None`: neither response data nor an exception; and
`async_refresh` likewise returns `None` rather than a boolean when its 3
attempts are consumed by 409/429/503 responses. -/
theorem c10_exhausted_attempts_return_none :
    (∀ (o : Api.Oracle) (s : Api.Session) (i : Nat)
      (e1 e2 e3 : Api.ApiError),
      o i = .error e1 → o (i + 1) = .error e2 → o (i + 2) = .error e3 →
      (e1.http_code = 408 ∨ e1.http_code = 502 ∨ e1.http_code = 429 ∨
        e1.http_code = 503) →
      (e2.http_code = 408 ∨ e2.http_code = 502 ∨ e2.http_code = 429 ∨
        e2.http_code = 503) →
      (e3.http_code = 408 ∨ e3.http_code = 502 ∨ e3.http_code = 429 ∨
        e3.http_code = 503) →
      (Api.async_api_request o s i).val = .ok none) ∧
    (∀ (o : Api.Oracle) (s : Api.Session) (ow : Option Nat) (i : Nat)
      (e1 e2 e3 : Api.ApiError),
      o i = .error e1 → o (i + 1) = .error e2 → o (i + 2) = .error e3 →
      (e1.http_code = 409 ∨ e1.http_code = 429 ∨ e1.http_code = 503) →
      (e2.http_code = 409 ∨ e2.http_code = 429 ∨ e2.http_code = 503) →
      (e3.http_code = 409 ∨ e3.http_code = 429 ∨ e3.http_code = 503) →
      (Api.async_refresh o s ow i).val = .ok none) ∧
    (Api.async_api_request
      (fun n => if n % 2 = 0 then .error { http_code := 401 }
        else .ok { accessToken := some "AT", refreshToken := some "RT",
                   scopes := some ["full"] })
      {} 0).val = .ok none := by
  refine ⟨?_, ?_, rfl⟩
  · intro o s i e1 e2 e3 ho1 ho2 ho3 hc1 hc2 hc3
    rcases hc1 with h1 | h1 | h1 | h1 <;> rcases hc2 with h2 | h2 | h2 | h2 <;>
      rcases hc3 with h3 | h3 | h3 | h3 <;>
      simp [Api.async_api_request, Api.apiLoop, ho1, ho2, ho3, h1, h2, h3]
  · intro o s ow i e1 e2 e3 ho1 ho2 ho3 hc1 hc2 hc3
    rcases hc1 with h1 | h1 | h1 <;> rcases hc2 with h2 | h2 | h2 <;>
      rcases hc3 with h3 | h3 | h3 <;>
      simp [Api.async_refresh, Api.refreshLoop, ho1, ho2, ho3, h1, h2, h3]

/-- Witness for C10: three straight 429 responses exhaust the call, three
straight 409 responses exhaust the refresh; both return `None`. -/
theorem c10_exhausted_attempts_return_none_witness :
    (((fun _ => .error { http_code := 429 } : Api.Oracle) 0
        = .error { http_code := 429 }) ∧
      (429 : Nat) = 429 ∧
      (Api.async_api_request (fun _ => .error { http_code := 429 }) {} 0).val
        = .ok none) ∧
    (((fun _ => .error { http_code := 409 } : Api.Oracle) 0
        = .error { http_code := 409 }) ∧
      (409 : Nat) = 409 ∧
      (Api.async_refresh (fun _ => .error { http_code := 409 }) {} none 0).val
        = .ok none) := by
  refine ⟨⟨rfl, rfl, ?_⟩, ⟨rfl, rfl, ?_⟩⟩
  · exact c10_exhausted_attempts_return_none.1
      (fun _ => .error { http_code := 429 }) {} 0 _ _ _ rfl rfl rfl
      (by decide) (by decide) (by decide)
  · exact c10_exhausted_attempts_return_none.2.1
      (fun _ => .error { http_code := 409 }) {} none 0 _ _ _ rfl rfl rfl
      (by decide) (by decide) (by decide)

/-- C3 counterexample: a call whose three attempts all fail with 401 and
whose internal refreshes all succeed performs three internal refresh
attempts in one call (the claim says exactly one), and the revisions they
are bound to are 0, 1 and 2: only the first is the revision observed at
the start of the call. -/
theorem c3_three_refreshes_in_one_call :
    Api.countRefresh ((Api.async_api_request
      (fun n => if n % 2 = 0 then .error { http_code := 401 }
        else .ok { accessToken := some "AT", refreshToken := some "RT",
                   scopes := some ["full"] })
      {} 0).tr) = 3 ∧
    ((Api.async_api_request
      (fun n => if n % 2 = 0 then .error { http_code := 401 }
        else .ok { accessToken := some "AT", refreshToken := some "RT",
                   scopes := some ["full"] })
      {} 0).tr).filterMap
      (fun ev => match ev with
        | .refreshInvoked w => some w
        | _ => none) = [some 0, some 1, some 2] ∧
    Api.countRefresh ((Api.async_api_request
      (fun n => if n % 2 = 0 then .error { http_code := 401 }
        else .ok { accessToken := some "AT", refreshToken := some "RT",
                   scopes := some ["full"] })
      {} 0).tr) ≠ 1 := by
  refine ⟨rfl, rfl, by decide⟩

namespace Api

/-- The refresh retry loop emits no refresh-invocation events of its own. -/
theorem countRefresh_refreshLoop (o : Oracle) :
    ∀ (n : Nat) (s : Session) (i : Nat) (tr : List Event),
      countRefresh (refreshLoop o s n i tr).tr = countRefresh tr
  | 0, _, _, _ => rfl
  | n + 1, s, i, tr => by
    cases ho : o i with
    | ok d =>
      cases hat : d.accessToken <;> cases hrt : d.refreshToken <;>
        cases hsc : d.scopes <;>
        simp [refreshLoop, ho, hat, hrt, hsc, countRefresh, List.countP_append]
    | error e =>
      simp only [refreshLoop, ho]
      split
      · rw [countRefresh_refreshLoop o n]
        simp [countRefresh, List.countP_append]
      · split
        · rw [countRefresh_refreshLoop o n]
          simp [countRefresh, List.countP_append]
        · split
          · simp [countRefresh, List.countP_append]
          · simp [countRefresh, List.countP_append]

/-- `async_refresh` emits no refresh-invocation events in its trace. -/
theorem countRefresh_async_refresh (o : Oracle) (s : Session)
    (ow : Option Nat) (i : Nat) :
    countRefresh (async_refresh o s ow i).tr = 0 := by
  rw [async_refresh]
  split
  · rfl
  · rw [countRefresh_refreshLoop o 3]
    rfl

end Api

open Api in
/-- C3 (amended): each attempt of a generic API call that fails with 401
triggers exactly one internal refresh, bound to the refresh revision
observed at the start of that attempt (which is the revision observed at
call start for the first attempt); if the refresh reports success the
original call is retried, consuming an attempt, and otherwise
AuthenticationNeeded is raised; an internal refresh that fails terminally
with HTTP 400 or 422 clears UID and all the other credential fields. -/
theorem c3_401_one_refresh_per_attempt (o : Api.Oracle) (s : Api.Session)
    (n i : Nat) (tr : List Api.Event) (e : Api.ApiError)
    (ho : o i = .error e) (h401 : e.http_code = 401) :
    (Api.apiLoop o s (n + 1) i tr =
      (let r := Api.async_refresh o { s with transport := true }
          (some s.refresh_revision) (i + 1)
      let tr2 := tr ++ [.call i, .refreshInvoked (some s.refresh_revision)]
          ++ r.tr
      match r.val with
      | .error pe => ⟨.error pe, r.s, r.next, tr2⟩
      | .ok v =>
        if v = some true then Api.apiLoop o r.s n r.next tr2
        else ⟨.error (.apiAuthNeeded e), r.s, r.next, tr2⟩)) ∧
    Api.countRefresh (Api.async_refresh o { s with transport := true }
        (some s.refresh_revision) (i + 1)).tr = 0 ∧
    (∀ e2, o (i + 1) = .error e2 →
      (e2.http_code = 400 ∨ e2.http_code = 422) →
      (Api.async_refresh o { s with transport := true }
          (some s.refresh_revision) (i + 1)).val = .ok (some false) ∧
      (Api.async_refresh o { s with transport := true }
          (some s.refresh_revision) (i + 1)).s.uid = none ∧
      (Api.async_refresh o { s with transport := true }
          (some s.refresh_revision) (i + 1)).s.accessToken = none ∧
      (Api.async_refresh o { s with transport := true }
          (some s.refresh_revision) (i + 1)).s.refreshToken = none ∧
      (Api.async_refresh o { s with transport := true }
          (some s.refresh_revision) (i + 1)).s.scopes = none) := by
  refine ⟨?_, Api.countRefresh_async_refresh o _ _ _, ?_⟩
  · rw [Api.apiLoop, ho]
    simp [h401]
  · intro e2 ho2 hc2
    have hval : Api.async_refresh o { s with transport := true }
        (some s.refresh_revision) (i + 1)
        = ⟨.ok (some false),
            Api.clearCreds ({ s with
                              transport := true,
                              refresh_revision := s.refresh_revision + 1 }),
            i + 2, [.call (i + 1)]⟩ := by
      rcases hc2 with h | h <;>
        simp [Api.async_refresh, Api.refreshLoop, ho2, h, Api.clearCreds]
    rw [hval]
    exact ⟨rfl, rfl, rfl, rfl, rfl⟩

open Api in
/-- Witness for the amended C3: first attempt fails 401, the inner refresh
hits a terminal 400; the refresh reports failure and clears the
credentials. -/
theorem c3_401_one_refresh_per_attempt_witness :
    (((fun n => if n = 0 then .error { http_code := 401 }
        else .error { http_code := 400 }) : Api.Oracle) 0
      = .error { http_code := 401 } ∧ (401 : Nat) = 401 ∧
      (400 : Nat) = 400) ∧
    (Api.countRefresh (Api.async_refresh
        (fun n => if n = 0 then .error { http_code := 401 }
          else .error { http_code := 400 })
        { transport := true } (some 0) 1).tr = 0 ∧
      (Api.async_refresh
        (fun n => if n = 0 then .error { http_code := 401 }
          else .error { http_code := 400 })
        { transport := true } (some 0) 1).val = .ok (some false) ∧
      (Api.async_refresh
        (fun n => if n = 0 then .error { http_code := 401 }
          else .error { http_code := 400 })
        { transport := true } (some 0) 1).s.uid = none) := by
  have h := c3_401_one_refresh_per_attempt
    (fun n => if n = 0 then .error { http_code := 401 }
      else .error { http_code := 400 })
    {} 2 0 [] { http_code := 401 } rfl rfl
  exact ⟨⟨rfl, rfl, rfl⟩, h.2.1, (h.2.2 { http_code := 400 } rfl
    (Or.inl rfl)).1, (h.2.2 { http_code := 400 } rfl (Or.inl rfl)).2.1⟩

namespace Api

/-- Clearing the credential group re-establishes the invariant. -/
theorem credInvariant_clearCreds (s : Session) :
    credInvariant (clearCreds s) := by
  simp [credInvariant, clearCreds]

/-- Caching a transport does not touch the credential fields. -/
theorem credInvariant_setTransport {s : Session} (h : credInvariant s) :
    credInvariant { s with transport := true } := h

/-- A state whose UID is set and whose AccessToken is set satisfies the
invariant. -/
theorem credInvariant_of_uid_accessToken {s : Session}
    (hu : s.uid ≠ none) (ha : s.accessToken.isSome = true) :
    credInvariant s := by
  obtain ⟨a, ha2⟩ := Option.isSome_iff_exists.mp ha
  constructor
  · intro h
    exact absurd h hu
  · rintro ⟨h1, -⟩
    rw [ha2] at h1
    exact Option.noConfusion h1

/-- `async_logout` preserves the credential invariant from any state. -/
theorem credInvariant_async_logout (o : Oracle) (s : Session) (i : Nat)
    (hinv : credInvariant s) : credInvariant (async_logout o s i).s := by
  by_cases hu : s.uid = none
  · have h : (async_logout o s i).s = s := by simp [async_logout, hu]
    rw [h]
    exact hinv
  · rcases ho : o i with e | d
    · by_cases h401 : e.http_code = 401
      · have h : (async_logout o s i).s = { s with transport := true } := by
          simp [async_logout, hu, ho, h401]
        rw [h]
        exact credInvariant_setTransport hinv
      · have h : (async_logout o s i).s = { s with transport := true } := by
          simp [async_logout, hu, ho, h401]
        rw [h]
        exact credInvariant_setTransport hinv
    · have h : (async_logout o s i).s
          = clearCreds { s with transport := true } := by
        simp [async_logout, hu, ho]
      rw [h]
      exact credInvariant_clearCreds _

/-- The refresh retry loop preserves the invariant on authenticated
states: every mutation either keeps UID set while setting a token, or
clears the whole group. -/
theorem credInvariant_refreshLoop (o : Oracle) :
    ∀ (n : Nat) (s : Session) (i : Nat) (tr : List Event),
      credInvariant s → s.uid ≠ none →
      credInvariant (refreshLoop o s n i tr).s
  | 0, _, _, _, hinv, _ => hinv
  | n + 1, s, i, tr, hinv, huid => by
    rcases ho : o i with e | d
    · by_cases h409 : e.http_code = 409
      · have h : (refreshLoop o s (n + 1) i tr).s
            = (refreshLoop o { s with transport := true } n (i + 1)
                (tr ++ [.call i])).s := by
          simp [refreshLoop, ho, h409]
        rw [h]
        exact credInvariant_refreshLoop o n _ _ _
          (credInvariant_setTransport hinv) huid
      · by_cases h429 : e.http_code = 429 ∨ e.http_code = 503
        · have h : (refreshLoop o s (n + 1) i tr).s
              = (refreshLoop o { s with transport := true } n (i + 1)
                  (tr ++ [.call i, .sleepRetry e])).s := by
            rcases h429 with h2 | h2 <;> simp [refreshLoop, ho, h409, h2]
          rw [h]
          exact credInvariant_refreshLoop o n _ _ _
            (credInvariant_setTransport hinv) huid
        · by_cases h400 : e.http_code = 400 ∨ e.http_code = 422
          · have h : (refreshLoop o s (n + 1) i tr).s
                = clearCreds { s with transport := true } := by
              rcases h400 with h2 | h2 <;>
                simp [refreshLoop, ho, h409, h429, h2]
            rw [h]
            exact credInvariant_clearCreds _
          · have h : (refreshLoop o s (n + 1) i tr).s
                = { s with transport := true } := by
              have h429a : ¬ e.http_code = 429 := fun hh => h429 (Or.inl hh)
              have h503a : ¬ e.http_code = 503 := fun hh => h429 (Or.inr hh)
              have h400a : ¬ e.http_code = 400 := fun hh => h400 (Or.inl hh)
              have h422a : ¬ e.http_code = 422 := fun hh => h400 (Or.inr hh)
              simp [refreshLoop, ho, h409, h429a, h503a, h400a, h422a]
            rw [h]
            exact credInvariant_setTransport hinv
    · cases hat : d.accessToken with
      | none =>
        have h : (refreshLoop o s (n + 1) i tr).s
            = { s with transport := true } := by
          simp [refreshLoop, ho, hat]
        rw [h]
        exact credInvariant_setTransport hinv
      | some a =>
        cases hrt : d.refreshToken with
        | none =>
          have h : (refreshLoop o s (n + 1) i tr).s
              = { s with transport := true, accessToken := some a } := by
            simp [refreshLoop, ho, hat, hrt]
          rw [h]
          exact credInvariant_of_uid_accessToken huid rfl
        | some rt =>
          cases hsc : d.scopes with
          | none =>
            have h : (refreshLoop o s (n + 1) i tr).s
                = { s with transport := true, accessToken := some a, refreshToken := some rt } := by
              simp [refreshLoop, ho, hat, hrt, hsc]
            rw [h]
            exact credInvariant_of_uid_accessToken huid rfl
          | some sc =>
            have h : (refreshLoop o s (n + 1) i tr).s
                = { s with transport := true, accessToken := some a, refreshToken := some rt, scopes := some sc } := by
              simp [refreshLoop, ho, hat, hrt, hsc]
            rw [h]
            exact credInvariant_of_uid_accessToken huid rfl

/-- `async_refresh` preserves the credential invariant on authenticated
states. -/
theorem credInvariant_async_refresh (o : Oracle) (s : Session)
    (ow : Option Nat) (i : Nat) (hinv : credInvariant s)
    (huid : s.uid ≠ none) : credInvariant (async_refresh o s ow i).s := by
  rw [async_refresh]
  split
  · exact hinv
  · exact credInvariant_refreshLoop o 3 _ i [] hinv huid

/-- `async_provide_2fa` preserves the credential invariant on
authenticated states. -/
theorem credInvariant_async_provide_2fa (o : Oracle) (s : Session) (i : Nat)
    (hinv : credInvariant s) (huid : s.uid ≠ none) :
    credInvariant (async_provide_2fa o s i).s := by
  rcases ho : o i with e | d
  · have h : (async_provide_2fa o s i).s = { s with transport := true } := by
      simp [async_provide_2fa, ho]
    rw [h]
    exact credInvariant_setTransport hinv
  · cases hsc : d.scopes with
    | none =>
      have h : (async_provide_2fa o s i).s = { s with transport := true } := by
        simp [async_provide_2fa, ho, hsc]
      rw [h]
      exact credInvariant_setTransport hinv
    | some sc =>
      by_cases hcode : d.code = some 1000
      · have h : (async_provide_2fa o s i).s = { s with transport := true, scopes := some sc, twoFA := false } := by
          simp [async_provide_2fa, ho, hsc, hcode]
        rw [h]
        constructor
        · intro hh
          exact absurd hh huid
        · rintro ⟨-, -, hh⟩
          exact Option.noConfusion hh
      · have h : (async_provide_2fa o s i).s = { s with transport := true, scopes := some sc } := by
          simp [async_provide_2fa, ho, hsc, hcode]
        rw [h]
        constructor
        · intro hh
          exact absurd hh huid
        · rintro ⟨-, -, hh⟩
          exact Option.noConfusion hh

/-- With a complete success response the credential assignments of
`async_authenticate` all land, and the resulting state satisfies the
invariant. -/
theorem credInvariant_setAuthCreds (s : Session) (d : RespData) (u : String)
    (hc : d.uid.isSome ∧ d.accessToken.isSome ∧ d.refreshToken.isSome ∧
      d.scopes.isSome) :
    ∃ s2, setAuthCreds s d u = .ok s2 ∧ credInvariant s2 := by
  obtain ⟨h1, h2, h3, h4⟩ := hc
  obtain ⟨u0, hu0⟩ := Option.isSome_iff_exists.mp h1
  obtain ⟨a0, ha0⟩ := Option.isSome_iff_exists.mp h2
  obtain ⟨r0, hr0⟩ := Option.isSome_iff_exists.mp h3
  obtain ⟨sc0, hsc0⟩ := Option.isSome_iff_exists.mp h4
  rw [setAuthCreds, hu0, ha0, hr0, hsc0]
  exact ⟨_, rfl, by simp [credInvariant]⟩

/-- `async_authenticate` preserves the credential invariant provided
every success response carries all the credential fields. -/
theorem credInvariant_async_authenticate (o : Oracle) (b1 b2 : Bool)
    (s : Session) (u : String) (i : Nat) (hinv : credInvariant s)
    (hcomp : ∀ j d, o j = .ok d → d.uid.isSome ∧ d.accessToken.isSome ∧
      d.refreshToken.isSome ∧ d.scopes.isSome) :
    credInvariant (async_authenticate o b1 b2 s u i).s := by
  have hlr := credInvariant_async_logout o s i hinv
  have hlr2 : credInvariant { (async_logout o s i).s with transport := true } :=
    credInvariant_setTransport hlr
  cases hv : (async_logout o s i).val with
  | error pe =>
    have h : (async_authenticate o b1 b2 s u i).s = (async_logout o s i).s := by
      simp [async_authenticate, hv]
    rw [h]
    exact hlr
  | ok lv =>
    rcases ho : o (async_logout o s i).next with e | _info
    · have h : (async_authenticate o b1 b2 s u i).s = { (async_logout o s i).s with transport := true } := by
        simp [async_authenticate, hv, ho]
      rw [h]
      exact hlr2
    · by_cases hb1 : b1 = true
      · rcases ho2 : o ((async_logout o s i).next + 1) with e2 | d
        · by_cases h8002 : e2.body_code = 8002
          · have h : (async_authenticate o b1 b2 s u i).s = { (async_logout o s i).s with transport := true } := by
              simp [async_authenticate, hv, ho, ho2, hb1, h8002]
            rw [h]
            exact hlr2
          · have h : (async_authenticate o b1 b2 s u i).s = { (async_logout o s i).s with transport := true } := by
              simp [async_authenticate, hv, ho, ho2, hb1, h8002]
            rw [h]
            exact hlr2
        · by_cases hsp : d.hasServerProof = true
          · by_cases hb2 : b2 = true
            · obtain ⟨s2, hs2, hs2inv⟩ := credInvariant_setAuthCreds
                { (async_logout o s i).s with transport := true } d u
                (hcomp _ d ho2)
              have h : (async_authenticate o b1 b2 s u i).s = s2 := by
                simp [async_authenticate, hv, ho, ho2, hb1, hsp, hb2, hs2]
              rw [h]
              exact hs2inv
            · have h : (async_authenticate o b1 b2 s u i).s = { (async_logout o s i).s with transport := true } := by
                simp [async_authenticate, hv, ho, ho2, hb1, hsp, hb2]
              rw [h]
              exact hlr2
          · have h : (async_authenticate o b1 b2 s u i).s = { (async_logout o s i).s with transport := true } := by
              simp [async_authenticate, hv, ho, ho2, hb1, hsp]
            rw [h]
            exact hlr2
      · have h : (async_authenticate o b1 b2 s u i).s = { (async_logout o s i).s with transport := true } := by
          simp [async_authenticate, hv, ho, hb1]
        rw [h]
        exact hlr2

/-- A dump/restore round trip preserves the credential invariant. -/
theorem credInvariant_load_dump (s : Session) (denv : String)
    (hinv : credInvariant s) :
    credInvariant (Session.load (Session.dump s denv)) := by
  by_cases hu : s.uid = none
  · have h : Session.load (Session.dump s denv) = setstate {} emptyDump := by
      simp [Session.dump, getstate, hu, Session.load]
    rw [h]
    simp [setstate, credInvariant, emptyDump, get_environment]
  · have h : Session.load (Session.dump s denv)
        = { uid := s.uid, accessToken := s.accessToken,
            refreshToken := s.refreshToken, scopes := s.scopes,
            accountName := s.accountName, twoFA := false,
            refresh_revision := 0,
            environment := some (s.environmentName denv),
            transport := false } := by
      simp [Session.dump, getstate, hu, Session.load, setstate,
        get_environment]
    rw [h]
    exact hinv

end Api

open Api in
/-- C5 counterexample: a successful refresh delivered to a fresh,
unauthenticated session sets AccessToken, RefreshToken and Scopes without
setting UID, so afterwards UID is absent while the other credential fields
are present — the invariant does not hold over every operation sequence. -/
theorem c5_invariant_broken_by_unauthenticated_refresh :
    ¬ Api.credInvariant ((Api.async_refresh
      (fun _ => .ok { accessToken := some "AT", refreshToken := some "RT",
                      scopes := some ["full"] })
      {} none 0).s) ∧
    ((Api.async_refresh
      (fun _ => .ok { accessToken := some "AT", refreshToken := some "RT",
                      scopes := some ["full"] })
      {} none 0).s.uid = none ∧
    (Api.async_refresh
      (fun _ => .ok { accessToken := some "AT", refreshToken := some "RT",
                      scopes := some ["full"] })
      {} none 0).s.accessToken = some "AT") :=
  ⟨by decide, rfl, rfl⟩

open Api in
/-- C5 (amended): the invariant "UID is absent iff AccessToken,
RefreshToken and Scopes are all absent" is preserved by logout from every
state, by refresh and provide_2fa from authenticated states, by
authenticate whenever API success responses carry all credential fields,
and by a dump/restore round trip; delivering a success response to refresh
or provide_2fa on an unauthenticated session is exactly what can break
it. -/
theorem c5_credential_group_invariant :
    (∀ (o : Api.Oracle) (s : Api.Session) (i : Nat), Api.credInvariant s →
      Api.credInvariant (Api.async_logout o s i).s) ∧
    (∀ (o : Api.Oracle) (s : Api.Session) (ow : Option Nat) (i : Nat),
      Api.credInvariant s → s.uid ≠ none →
      Api.credInvariant (Api.async_refresh o s ow i).s) ∧
    (∀ (o : Api.Oracle) (s : Api.Session) (i : Nat),
      Api.credInvariant s → s.uid ≠ none →
      Api.credInvariant (Api.async_provide_2fa o s i).s) ∧
    (∀ (o : Api.Oracle) (b1 b2 : Bool) (s : Api.Session) (u : String)
      (i : Nat), Api.credInvariant s →
      (∀ j d, o j = .ok d → d.uid.isSome ∧ d.accessToken.isSome ∧
        d.refreshToken.isSome ∧ d.scopes.isSome) →
      Api.credInvariant (Api.async_authenticate o b1 b2 s u i).s) ∧
    (∀ (s : Api.Session) (denv : String), Api.credInvariant s →
      Api.credInvariant (Api.Session.load (Api.Session.dump s denv))) :=
  ⟨fun o s i h => Api.credInvariant_async_logout o s i h,
   fun o s ow i h hu => Api.credInvariant_async_refresh o s ow i h hu,
   fun o s i h hu => Api.credInvariant_async_provide_2fa o s i h hu,
   fun o b1 b2 s u i h hc =>
     Api.credInvariant_async_authenticate o b1 b2 s u i h hc,
   fun s denv h => Api.credInvariant_load_dump s denv h⟩

open Api in
/-- Witness for the amended C5 on concrete runs: refresh, logout and a
full authenticate with complete responses, all starting from an
authenticated invariant-satisfying state. -/
theorem c5_credential_group_invariant_witness :
    (Api.credInvariant
      ({ uid := some "u", accessToken := some "AT", refreshToken := some "RT",
         scopes := some ["full"] } : Api.Session) ∧
      (({ uid := some "u", accessToken := some "AT",
          refreshToken := some "RT",
          scopes := some ["full"] } : Api.Session).uid ≠ none)) ∧
    Api.credInvariant ((Api.async_refresh
      (fun _ => .ok { uid := some "u2", accessToken := some "AT2",
                      refreshToken := some "RT2", scopes := some ["full"] })
      { uid := some "u", accessToken := some "AT", refreshToken := some "RT",
        scopes := some ["full"] } none 0).s) ∧
    Api.credInvariant ((Api.async_logout
      (fun _ => .ok { uid := some "u2", accessToken := some "AT2",
                      refreshToken := some "RT2", scopes := some ["full"] })
      { uid := some "u", accessToken := some "AT", refreshToken := some "RT",
        scopes := some ["full"] } 0).s) ∧
    Api.credInvariant ((Api.async_authenticate
      (fun _ => .ok { uid := some "u2", accessToken := some "AT2",
                      refreshToken := some "RT2", scopes := some ["full"] })
      true true
      { uid := some "u", accessToken := some "AT", refreshToken := some "RT",
        scopes := some ["full"] } "alice" 0).s) := by
  refine ⟨⟨by decide, by decide⟩, ?_, ?_, ?_⟩
  · exact c5_credential_group_invariant.2.1
      (fun _ => .ok { uid := some "u2", accessToken := some "AT2",
                      refreshToken := some "RT2", scopes := some ["full"] })
      { uid := some "u", accessToken := some "AT", refreshToken := some "RT",
        scopes := some ["full"] } none 0 (by decide) (by decide)
  · exact c5_credential_group_invariant.1
      (fun _ => .ok { uid := some "u2", accessToken := some "AT2",
                      refreshToken := some "RT2", scopes := some ["full"] })
      { uid := some "u", accessToken := some "AT", refreshToken := some "RT",
        scopes := some ["full"] } 0 (by decide)
  · exact c5_credential_group_invariant.2.2.2.1
      (fun _ => .ok { uid := some "u2", accessToken := some "AT2",
                      refreshToken := some "RT2", scopes := some ["full"] })
      true true
      { uid := some "u", accessToken := some "AT", refreshToken := some "RT",
        scopes := some ["full"] } "alice" 0 (by decide)
      (fun j d hd => by
        simp only [Except.ok.injEq] at hd
        rw [← hd]
        exact ⟨rfl, rfl, rfl, rfl⟩)
